import Mathlib

/-!
Verification of the mentolo_ai voice-assistant loop and its mobile API bindings.

The mobile JavaScript bindings (src/mobile/api.js, src/mobile/PicovoiceWakeWord.js,
src/mobile/ARPlaceholder.js) are embedded directly from the source. The Python
session-loop module (voice_assistant.py) is not part of the source tree, only its
runner script and documentation are; the components that live there
(session loop, microphone arbiter, utterance capturer, response orchestrator,
wake-word model resolution) are modelled from the specification, as marked on
each definition.
-/

namespace VoiceApp

/-! ## A small JSON value model (for the fetch-based API client in src/mobile/api.js) -/

inductive JVal where
  | str (s : String)
  | num (n : Int)
  | jbool (b : Bool)
  | null
  deriving Repr, DecidableEq

/-- A parsed JSON document, as the API client consumes it: the client only ever
reads top-level fields of the reply object, so a body is either a flat object
or some non-object value. -/
inductive Json where
  | scalar (v : JVal)
  | obj (fields : List (String × JVal))
  deriving Repr, DecidableEq

/-- Field access on a JSON object; a missing field reads as JS undefined (none). -/
def Json.getField : Json → String → Option JVal
  | .obj fs, k => fs.lookup k
  | _, _ => none

/-- JS strict equality of a possibly-undefined field against a string literal:
true exactly when the field is present and is that string. -/
def jsFieldEqStr (v : Option JVal) (s : String) : Bool :=
  match v with
  | some (.str t) => t == s
  | _ => false

/-! ## Embedding of src/mobile/api.js -/

/-- config.js: request timeout in milliseconds (src/mobile/config.js line 31). -/
def TIMEOUT : Nat := 30000

/-- config.js: the backend base URL (src/mobile/config.js line 13). -/
def API_BASE_URL : String := "http://YOUR_IP_ADDRESS:5000/api"

/-- Outcome of a JS fetch call: either the promise rejects (network failure,
timeout), or a response arrives with a status code and a body that either
parses as JSON or does not (response.json() throws). -/
inductive FetchOutcome where
  | networkError
  | response (status : Nat) (body : Option Json)
  deriving Repr, DecidableEq

/-- JS Response.ok: status in the 2xx range. -/
def responseOk (status : Nat) : Bool := decide (200 ≤ status) && decide (status < 300)

/-- The HTTP request a client function issues. -/
structure HttpRequest where
  method : String
  url : String
  body : List (String × JVal)
  deriving Repr, DecidableEq

/-- askQuestion, request side (src/mobile/api.js lines 19-30): POST to
API_BASE_URL/ask with JSON body carrying user_input, user_id and context. -/
def askRequest (userInput : String) (userId : JVal) (context : JVal) : HttpRequest :=
  { method := "POST"
  , url := API_BASE_URL ++ "/ask"
  , body := [("user_input", .str userInput), ("user_id", userId), ("context", context)] }

/-- askQuestion, response side (src/mobile/api.js lines 32-48): on a non-ok or
failed response an error is thrown to the caller; on an ok response the parsed
body is projected onto the object literal of lines 38-44, whose keys are
text, audio_url, emotion, response_time and audio_duration. -/
def askQuestion (o : FetchOutcome) : Except String (List (String × Option JVal)) :=
  match o with
  | .networkError => .error "network error"
  | .response status body =>
    if responseOk status then
      match body with
      | none => .error "json parse error"
      | some data =>
        .ok [ ("text", data.getField "text")
            , ("audio_url", data.getField "audio_url")
            , ("emotion", data.getField "emotion")
            , ("response_time", data.getField "response_time")
            , ("audio_duration", data.getField "audio_duration") ]
    else .error "HTTP error"

/-- checkHealth (src/mobile/api.js lines 72-89): GET /health, return false on any
rejection, non-ok status or unparseable body, otherwise test body.status
against the string healthy. The catch-all try block makes it total. -/
def checkHealth (o : FetchOutcome) : Bool :=
  match o with
  | .networkError => false
  | .response status body =>
    if responseOk status then
      match body with
      | none => false
      | some data => jsFieldEqStr (data.getField "status") "healthy"
    else false

/-! ## Embedding of src/mobile/PicovoiceWakeWord.js (start/stop, lines 71-123) -/

/-- Mutable fields of PicovoiceWakeWordService relevant to start/stop:
whether this.picovoice is non-null and the isListening flag. -/
structure PicoState where
  picovoiceInit : Bool
  isListening : Bool
  deriving Repr, DecidableEq

/-- Calls made to the shared VoiceProcessor audio stream. -/
inductive VpEffect where
  | vpStart
  | vpStop
  deriving Repr, DecidableEq

/-- Whether the underlying VoiceProcessor start/stop calls succeed. -/
structure VpEnv where
  vpStartOk : Bool
  vpStopOk : Bool
  deriving Repr, DecidableEq

deriving instance DecidableEq for Except

/-- Result of a service method: normal return or thrown error, the updated
service state, and the VoiceProcessor calls that were issued. -/
structure OpResult where
  result : Except String Unit
  state : PicoState
  effects : List VpEffect
  deriving Repr, DecidableEq

/-- PicovoiceWakeWordService.start (lines 71-105): throw if not initialized;
return at once if already listening; otherwise start the voice processor and
set isListening, rethrowing a voice-processor failure with the flag unchanged. -/
def picoStart (env : VpEnv) (s : PicoState) : OpResult :=
  if !s.picovoiceInit then
    { result := .error "Picovoice not initialized", state := s, effects := [] }
  else if s.isListening then
    { result := .ok (), state := s, effects := [] }
  else if env.vpStartOk then
    { result := .ok (), state := { s with isListening := true }, effects := [.vpStart] }
  else
    { result := .error "Error starting wake word detection", state := s, effects := [.vpStart] }

/-- PicovoiceWakeWordService.stop (lines 110-123): return at once if not
listening; otherwise stop the voice processor and clear isListening,
rethrowing a voice-processor failure with the flag unchanged. -/
def picoStop (env : VpEnv) (s : PicoState) : OpResult :=
  if !s.isListening then
    { result := .ok (), state := s, effects := [] }
  else if env.vpStopOk then
    { result := .ok (), state := { s with isListening := false }, effects := [.vpStop] }
  else
    { result := .error "Error stopping wake word detection", state := s, effects := [.vpStop] }

/-! ## Embedding of playAudioResponse (src/mobile/ARPlaceholder.js lines 133-161) -/

/-- Observable actions of playAudioResponse. -/
inductive PlayEffect where
  | unloadPrevious
  | createSound
  | awaitFinish
  | logError
  | alertAudioError
  deriving Repr, DecidableEq

/-- How playAudioResponse returns: after playback finished, or after catching an
error inside the try block (it never rethrows). -/
inductive PlayReturn where
  | completed
  | errorHandled
  deriving Repr, DecidableEq

/-- Whether Audio.Sound.createAsync resolves for the given artifact: it rejects
when the artifact does not exist or playback cannot start. -/
inductive SoundCreation where
  | failure
  | success
  deriving Repr, DecidableEq

/-- playAudioResponse: unload any previous sound, create and start the new sound,
then block on a promise resolved only when the playback status reports
didJustFinish; one catch block around the whole body logs the error and shows
an alert, then the function returns normally. -/
def playAudioResponse (hasPrevSound : Bool) (unloadOk : Bool) (c : SoundCreation) :
    PlayReturn × List PlayEffect :=
  if hasPrevSound && !unloadOk then
    (.errorHandled, [.unloadPrevious, .logError, .alertAudioError])
  else
    let pre : List PlayEffect := if hasPrevSound then [.unloadPrevious] else []
    match c with
    | .failure => (.errorHandled, pre ++ [.createSound, .logError, .alertAudioError])
    | .success => (.completed, pre ++ [.createSound, .awaitFinish])

/-! ## Spec-modelled components (voice_assistant.py is not in the source tree) -/

/-- Modelled from the spec: the ResponsePayload data model of section 3 (text,
optional audio artifact handle, emotion tag, latency). -/
structure ResponsePayload where
  text : String
  audioRef : Option String
  emotion_tag : String
  latency : Nat
  deriving Repr, DecidableEq

/-- Modelled from the spec: the ways the remote answer-service call can fail
(network error, non-2xx, timeout). -/
inductive RemoteFailure where
  | networkError
  | non2xx (status : Nat)
  | timeout
  deriving Repr, DecidableEq

/-- Modelled from the spec: outcome of the primary remote call of
ResponseOrchestrator.respond. -/
inductive RemoteOutcome where
  | success (text : String) (audioRef : Option String) (emotion : String) (latency : Nat)
  | failure (f : RemoteFailure)
  deriving Repr, DecidableEq

/-- Modelled from the spec: user input handed to the orchestrator, a captured
audio artifact or already-transcribed text. -/
inductive VoiceInput where
  | audio (byteLength : Nat)
  | text (t : String)
  deriving Repr, DecidableEq

/-- Modelled from the spec: outcomes of the lazily-built local fallback
sub-services (transcription, generation, primary and secondary synthesis). -/
structure FallbackEnv where
  transcribeResult : Except String String
  generateResult : Except String String
  primarySynthResult : Except String String
  secondarySynthResult : Except String String
  deriving Repr, DecidableEq

/-- Modelled from the spec: the degraded payload produced when the fallback path
fails internally, carrying an apologetic text and the error emotion tag. -/
def degradedPayload : ResponsePayload :=
  { text := "Sorry, I could not generate a response right now."
  , audioRef := none, emotion_tag := "error", latency := 0 }

/-- Modelled from the spec: the local fallback pipeline of section 4.4,
transcribe (skipped for text input), generate, synthesize (secondary engine if
the primary is unavailable); every internal error is caught and becomes the
degraded payload. -/
def runFallback (input : VoiceInput) (env : FallbackEnv) : ResponsePayload :=
  match (match input with
         | .text t => Except.ok t
         | .audio _ => env.transcribeResult) with
  | .error _ => degradedPayload
  | .ok _ =>
    match env.generateResult with
    | .error _ => degradedPayload
    | .ok reply =>
      match env.primarySynthResult with
      | .ok path => { text := reply, audioRef := some path, emotion_tag := "neutral", latency := 0 }
      | .error _ =>
        match env.secondarySynthResult with
        | .ok path => { text := reply, audioRef := some path, emotion_tag := "neutral", latency := 0 }
        | .error _ => degradedPayload

/-- Modelled from the spec: ResponseOrchestrator.respond of section 4.4, remote
first; every remote failure is caught and enters the local fallback path. -/
def respond (input : VoiceInput) (remote : RemoteOutcome) (env : FallbackEnv) : ResponsePayload :=
  match remote with
  | .success t a e l => { text := t, audioRef := a, emotion_tag := e, latency := l }
  | .failure _ => runFallback input env

/-- Modelled from the spec: whether the fallback pipeline fails internally for
this input (transcription needed and failing, generation failing, or both
synthesis engines failing). -/
def fallbackFails (input : VoiceInput) (env : FallbackEnv) : Bool :=
  (match input with
   | .text _ => false
   | .audio _ => !env.transcribeResult.isOk)
  || !env.generateResult.isOk
  || (!env.primarySynthResult.isOk && !env.secondarySynthResult.isOk)

/-! ## Spec-modelled utterance validation (section 4.3 step 6 and section 8) -/

/-- Modelled from the spec: a captured utterance artifact, raw bytes length plus
wall-clock timestamp. -/
structure CapturedUtterance where
  byteLength : Nat
  timestamp : Nat
  deriving Repr, DecidableEq

/-- Modelled from the spec: the minimum byte-size validation of the
UtteranceCapturer; the boundary of section 8 fixes that an artifact of exactly
the minimum byte threshold is accepted and one byte under is rejected, so
acceptance is byteLength at least the threshold. -/
def acceptUtterance (minBytes : Nat) (u : CapturedUtterance) : Bool :=
  decide (minBytes ≤ u.byteLength)

/-! ## Spec-modelled wake-word model resolution (section 4.1) -/

/-- The model path bundled with the mobile binding
(src/mobile/PicovoiceWakeWord.js line 33), a wasm build. -/
def wasmModelPath : String :=
  "../Harry-Potter_en_wasm_v3_0_0/Harry-Potter_en_wasm_v3_0_0.ppn"

/-- The model path the runner script requires (src/run_voice_assistant.sh). -/
def macModelPath : String :=
  "Harry-Potter_en_mac_v3_0_0/Harry-Potter_en_mac_v3_0_0.ppn"

/-- Character-list prefix test. -/
def leadsWith : List Char → List Char → Bool
  | [], _ => true
  | _ :: _, [] => false
  | a :: as, b :: bs => a == b && leadsWith as bs

/-- Character-list substring test. -/
def containsChars (pat : List Char) : List Char → Bool
  | [] => leadsWith pat []
  | c :: rest => leadsWith pat (c :: rest) || containsChars pat rest

/-- Modelled from the spec: a model file name indicating a portable/interpreted
target (a wasm build), incompatible with the running native process. -/
def isPortableModelName (path : String) : Bool :=
  containsChars "wasm".toList path.toList

/-- Modelled from the spec: the startup-fatal ModelNotFound error, naming every
attempted path. -/
structure ModelNotFound where
  attempted : List String
  deriving Repr, DecidableEq

/-- Modelled from the spec: model resolution of section 4.1, searching a
prioritized candidate list with an injectable path-existence check, rejecting
portable-target names, returning the first existing compatible path and
otherwise failing fast (no retry) with ModelNotFound listing the attempts. -/
def resolveModel (pathExists : String → Bool) (candidates : List String) :
    Except ModelNotFound String :=
  match candidates.find? (fun p => pathExists p && !isPortableModelName p) with
  | some p => .ok p
  | none => .error { attempted := candidates }

/-! ## Spec-modelled session loop (sections 4.6, 4.2, 4.3 and 5) -/

/-- Modelled from the spec: the SessionState values of section 3. -/
inductive Phase where
  | Idle
  | WakeListening
  | Capturing
  | Responding
  | Playing
  | FollowUpWindow
  deriving Repr, DecidableEq

/-- Modelled from the spec: the loop state, the current phase together with
which of the two microphone streams (spotter, capturer) is open. -/
structure LoopState where
  phase : Phase
  spotterOpen : Bool
  captureOpen : Bool
  deriving Repr, DecidableEq

/-- Modelled from the spec: the events that drive the state machine of section
4.6; captureResult none is the normal no-input outcome. -/
inductive LoopEvent where
  | enterLoop
  | detection
  | captureResult (r : Option CapturedUtterance)
  | responseObtained
  | playbackDone
  | followUpResult (validated : Bool)
  deriving Repr, DecidableEq

/-- Modelled from the spec: the process starts in Idle with no stream open. -/
def initState : LoopState :=
  { phase := .Idle, spotterOpen := false, captureOpen := false }

/-- Modelled from the spec: one transition of the session loop (section 4.6),
with the microphone-arbiter protocol of sections 4.2 and 5 made explicit in
the stream flags: the spotter stream is fully closed before the capture stream
opens, the device is fully released before the Responding phase (which holds
the outbound network request) and reacquired only after the response payload
is obtained; the follow-up window reuses the capturer stream; events that do
not belong to the current phase are ignored, so in particular a DetectionEvent
during Capturing leaves the state unchanged. -/
def step (minBytes : Nat) (st : LoopState) (ev : LoopEvent) : LoopState :=
  match st.phase, ev with
  | .Idle, .enterLoop =>
      { phase := .WakeListening, spotterOpen := true, captureOpen := false }
  | .WakeListening, .detection =>
      { phase := .Capturing, spotterOpen := false, captureOpen := true }
  | .Capturing, .captureResult r =>
      match r with
      | some u =>
        if acceptUtterance minBytes u then
          { phase := .Responding, spotterOpen := false, captureOpen := false }
        else
          { phase := .WakeListening, spotterOpen := true, captureOpen := false }
      | none =>
          { phase := .WakeListening, spotterOpen := true, captureOpen := false }
  | .Responding, .responseObtained =>
      { phase := .Playing, spotterOpen := false, captureOpen := false }
  | .Playing, .playbackDone =>
      { phase := .FollowUpWindow, spotterOpen := false, captureOpen := true }
  | .FollowUpWindow, .followUpResult validated =>
      if validated then
        { phase := .Responding, spotterOpen := false, captureOpen := false }
      else
        { phase := .WakeListening, spotterOpen := true, captureOpen := false }
  | _, _ => st

/-- The loop states reachable from the initial state. -/
inductive Reachable (minBytes : Nat) : LoopState → Prop where
  | init : Reachable minBytes initState
  | next {st : LoopState} (ev : LoopEvent) :
      Reachable minBytes st → Reachable minBytes (step minBytes st ev)

/-- The stream flags each phase keeps open, per the arbitration protocol. -/
def streamsOf : Phase → Bool × Bool
  | .Idle => (false, false)
  | .WakeListening => (true, false)
  | .Capturing => (false, true)
  | .Responding => (false, false)
  | .Playing => (false, false)
  | .FollowUpWindow => (false, true)

/-- Modelled from the spec: one timed event, the phase outcome together with how
long the loop blocked waiting for it. -/
structure TimedEvent where
  ev : LoopEvent
  duration : Nat
  deriving Repr, DecidableEq

/-- Run the loop over a list of timed events, accumulating elapsed time. -/
def runTimed (minBytes : Nat) (st : LoopState) (evs : List TimedEvent) : LoopState × Nat :=
  match evs with
  | [] => (st, 0)
  | te :: rest =>
    let (st', t) := runTimed minBytes (step minBytes st te.ev) rest
    (st', te.duration + t)

/-- Modelled from the spec: the event sequence of one session cycle starting in
Capturing: the capture outcome, then, when a valid utterance was captured, the
response, the playback and a follow-up window that validates nothing. -/
def cycleEvents (minBytes : Nat) (r : Option CapturedUtterance)
    (d1 d2 d3 d4 : Nat) : List TimedEvent :=
  match r with
  | some u =>
    if acceptUtterance minBytes u then
      [ { ev := .captureResult r, duration := d1 }
      , { ev := .responseObtained, duration := d2 }
      , { ev := .playbackDone, duration := d3 }
      , { ev := .followUpResult false, duration := d4 } ]
    else
      [ { ev := .captureResult r, duration := d1 } ]
  | none => [ { ev := .captureResult r, duration := d1 } ]

/-- The loop state at the start of a capture phase. -/
def capturingState : LoopState :=
  { phase := .Capturing, spotterOpen := false, captureOpen := true }

/-- A sample server reply used as a concrete evaluation point. -/
def sampleAskBody : Json :=
  .obj [ ("text", .str "hi")
       , ("audio_url", .str "http://x/a.mp3")
       , ("emotion", .str "happy")
       , ("response_time", .num 100)
       , ("audio_duration", .num 2) ]

/-- A fallback environment in which all local sub-services fail. -/
def envAllFail : FallbackEnv :=
  { transcribeResult := .error "stt down"
  , generateResult := .error "llm down"
  , primarySynthResult := .error "tts down"
  , secondarySynthResult := .error "tts2 down" }

/-! ## Helper lemmas -/

/-- jsFieldEqStr holds exactly on a present string field with that value. -/
theorem jsFieldEqStr_true_iff (v : Option JVal) (s : String) :
    jsFieldEqStr v s = true ↔ v = some (.str s) := by
  rcases v with _ | w
  · simp [jsFieldEqStr]
  · rcases w with t | n | b | _ <;> simp [jsFieldEqStr]

/-- Every transition keeps the stream flags exactly the ones its target phase
is allowed to hold. -/
theorem step_streams (minBytes : Nat) (st : LoopState) (ev : LoopEvent)
    (h : (st.spotterOpen, st.captureOpen) = streamsOf st.phase) :
    ((step minBytes st ev).spotterOpen, (step minBytes st ev).captureOpen)
      = streamsOf (step minBytes st ev).phase := by
  rcases st with ⟨ph, sp, cp⟩
  cases ph <;> cases ev <;>
    simp_all [step, streamsOf] <;>
    first
    | rfl
    | (rename_i r; rcases r with _ | u <;> simp [streamsOf] <;> split <;> simp [streamsOf])

/-- In every reachable state the stream flags are exactly the ones the current
phase is allowed to hold. -/
theorem reachable_streams (minBytes : Nat) (st : LoopState)
    (h : Reachable minBytes st) :
    (st.spotterOpen, st.captureOpen) = streamsOf st.phase := by
  induction h with
  | init => rfl
  | next ev _ ih => exact step_streams minBytes _ ev ih

/-- An internally failing fallback run yields exactly the degraded payload. -/
theorem runFallback_degraded (input : VoiceInput) (env : FallbackEnv)
    (h : fallbackFails input env = true) : runFallback input env = degradedPayload := by
  rcases env with ⟨tr, ge, p1, p2⟩
  rcases input with n | t <;>
    rcases tr with e1 | t1 <;> rcases ge with e2 | g1 <;>
    rcases p1 with e3 | s1 <;> rcases p2 with e4 | s2 <;>
    simp_all [fallbackFails, runFallback, Except.isOk, Except.toBool]

/-- find? returns the head of the first satisfying suffix when everything
before it fails the predicate. -/
theorem find_first {α : Type} (f : α → Bool) :
    ∀ (pre : List α) (p : α) (post : List α),
      (∀ q ∈ pre, f q = false) → f p = true →
      List.find? f (pre ++ p :: post) = some p := by
  intro pre
  induction pre with
  | nil =>
    intro p post _ hp
    simp [List.find?_cons_of_pos, hp]
  | cons a t ih =>
    intro p post hpre hp
    have ha : f a = false := hpre a (by simp)
    rw [List.cons_append, List.find?_cons_of_neg _ (by simp [ha])]
    exact ih p post (fun q hq => hpre q (by simp [hq])) hp

/-! ## Claims -/

/-- C1: the respond operation of the orchestrator returns exactly one
ResponsePayload for every input, remote outcome and fallback environment:
every remote failure (network error, non-2xx, timeout) is caught and routed
into the local fallback path, and when that path fails internally the result
is the degraded payload whose emotion tag is the string error; no path
surfaces an unhandled exception. -/
theorem C1_respond_total_and_degraded (input : VoiceInput) (remote : RemoteOutcome)
    (env : FallbackEnv) :
    (∃ p : ResponsePayload, respond input remote env = p) ∧
    (∀ f, remote = .failure f → respond input remote env = runFallback input env) ∧
    (∀ f, remote = .failure f → fallbackFails input env = true →
      (respond input remote env).emotion_tag = "error") := by
  refine ⟨⟨respond input remote env, rfl⟩, ?_, ?_⟩
  · rintro f rfl
    rfl
  · rintro f rfl hf
    show (runFallback input env).emotion_tag = "error"
    rw [runFallback_degraded input env hf]
    rfl

/-- Witness for C1 at a concrete failing remote call with every fallback
sub-service down. -/
theorem C1_witness :
    respond (.text "hello") (.failure .networkError) envAllFail
        = runFallback (.text "hello") envAllFail ∧
    (respond (.text "hello") (.failure .networkError) envAllFail).emotion_tag = "error" :=
  ⟨(C1_respond_total_and_degraded (.text "hello") (.failure .networkError) envAllFail).2.1
      .networkError rfl,
   (C1_respond_total_and_degraded (.text "hello") (.failure .networkError) envAllFail).2.2
      .networkError rfl (by decide)⟩

/-- C2: in every reachable loop state at most one of the spotter and capture
streams is open; the Responding phase, which performs the outbound network
request, holds neither stream (the microphone is fully released before the
request begins), and no event other than obtaining the response payload moves
the loop out of Responding, so the microphone is reacquired only after a reply
or fallback result. -/
theorem C2_mic_mutual_exclusion (minBytes : Nat) (st : LoopState)
    (h : Reachable minBytes st) :
    (!(st.spotterOpen && st.captureOpen)) = true ∧
    (st.phase = .Responding → st.spotterOpen = false ∧ st.captureOpen = false) ∧
    (st.phase = .Responding → ∀ ev, ev ≠ .responseObtained → step minBytes st ev = st) := by
  have hs := reachable_streams minBytes st h
  rcases st with ⟨ph, sp, cp⟩
  refine ⟨?_, ?_, ?_⟩
  · cases ph <;> simp_all [streamsOf]
  · cases ph <;> simp_all [streamsOf]
  · intro hph ev hev
    cases ph <;> simp_all
    cases ev <;> simp_all [step]

/-- Witness for C2 at the reachable initial state. -/
theorem C2_witness :
    (!(initState.spotterOpen && initState.captureOpen)) = true ∧
    (initState.phase = .Responding →
      initState.spotterOpen = false ∧ initState.captureOpen = false) ∧
    (initState.phase = .Responding →
      ∀ ev, ev ≠ .responseObtained → step 0 initState ev = initState) :=
  C2_mic_mutual_exclusion 0 initState Reachable.init

/-- C3: a DetectionEvent in WakeListening causes exactly one transition, into
Capturing; in any reachable Capturing state the spotter stream is closed and a
further DetectionEvent leaves the state unchanged, so a second wake-word
detection never starts a second capture cycle. -/
theorem C3_detection_ignored_while_capturing (minBytes : Nat) (st : LoopState)
    (h : Reachable minBytes st) :
    (st.phase = .WakeListening →
      step minBytes st .detection
        = { phase := .Capturing, spotterOpen := false, captureOpen := true }) ∧
    (st.phase = .Capturing →
      st.spotterOpen = false ∧ step minBytes st .detection = st) := by
  have hs := reachable_streams minBytes st h
  rcases st with ⟨ph, sp, cp⟩
  cases ph <;> simp_all [streamsOf, step]

/-- Witness for C3 at the reachable Capturing state. -/
theorem C3_witness :
    capturingState.spotterOpen = false ∧ step 0 capturingState .detection = capturingState :=
  (C3_detection_ignored_while_capturing 0 capturingState
    (Reachable.next .detection (Reachable.next .enterLoop Reachable.init))).2 rfl

/-- C4: model resolution only ever returns an existing candidate whose name does
not indicate a portable target, returns the first such candidate in priority
order, and when no compatible candidate exists it fails at once with a
ModelNotFound error naming exactly the attempted paths. -/
theorem C4_resolveModel_policy (pathExists : String → Bool) (candidates : List String) :
    (∀ p, resolveModel pathExists candidates = .ok p →
      p ∈ candidates ∧ pathExists p = true ∧ isPortableModelName p = false) ∧
    (∀ pre p post, candidates = pre ++ p :: post →
      (∀ q ∈ pre, (pathExists q && !isPortableModelName q) = false) →
      pathExists p = true → isPortableModelName p = false →
      resolveModel pathExists candidates = .ok p) ∧
    ((∀ p ∈ candidates, (pathExists p && !isPortableModelName p) = false) →
      resolveModel pathExists candidates = .error { attempted := candidates }) := by
  refine ⟨?_, ?_, ?_⟩
  · intro p hp
    unfold resolveModel at hp
    rcases hfind : List.find? (fun q => pathExists q && !isPortableModelName q) candidates with
      _ | q
    · rw [hfind] at hp
      cases hp
    · rw [hfind] at hp
      cases hp
      have hmem := List.mem_of_find?_eq_some hfind
      have hpred := List.find?_some hfind
      simp only [Bool.and_eq_true, Bool.not_eq_true'] at hpred
      exact ⟨hmem, hpred.1, hpred.2⟩
  · intro pre p post hc hpre hex hport
    unfold resolveModel
    rw [hc, find_first _ pre p post hpre (by simp [hex, hport])]
  · intro hall
    unfold resolveModel
    rw [List.find?_eq_none.mpr (fun q hq => by simp [hall q hq])]

/-- Witness for C4: with both repository model paths present, the wasm-named
model bundled with the mobile binding is rejected and the native mac model is
resolved. -/
theorem C4_witness :
    resolveModel (fun p => p == wasmModelPath || p == macModelPath)
        [wasmModelPath, macModelPath] = .ok macModelPath :=
  (C4_resolveModel_policy (fun p => p == wasmModelPath || p == macModelPath)
      [wasmModelPath, macModelPath]).2.1
    [wasmModelPath] macModelPath [] rfl (by decide) (by decide) (by decide)

/-- C5: one session cycle starting in Capturing always ends back in
WakeListening with the spotter stream reopened, and its total blocking time is
at most the sum of the capture, response, playback and follow-up phase
timeouts, provided each blocking phase resolves within its own timeout. -/
theorem C5_cycle_bounded (minBytes c r p f : Nat) (cres : Option CapturedUtterance)
    (d1 d2 d3 d4 : Nat) (h1 : d1 ≤ c) (h2 : d2 ≤ r) (h3 : d3 ≤ p) (h4 : d4 ≤ f) :
    (runTimed minBytes capturingState (cycleEvents minBytes cres d1 d2 d3 d4)).1
      = { phase := .WakeListening, spotterOpen := true, captureOpen := false } ∧
    (runTimed minBytes capturingState (cycleEvents minBytes cres d1 d2 d3 d4)).2
      ≤ c + r + p + f := by
  rcases cres with _ | u
  · refine ⟨by simp [cycleEvents, runTimed, step, capturingState], ?_⟩
    simp only [cycleEvents, runTimed]
    omega
  · by_cases hacc : acceptUtterance minBytes u = true
    · refine ⟨by simp [cycleEvents, hacc, runTimed, step, capturingState], ?_⟩
      simp only [cycleEvents, hacc, if_true, runTimed]
      omega
    · refine ⟨?_, ?_⟩
      · simp [cycleEvents, hacc, runTimed, step, capturingState]
      · simp only [cycleEvents, hacc, if_false, runTimed]
        omega

/-- Witness for C5 at concrete phase timeouts, with the Responding phase bounded
by the configured request timeout. -/
theorem C5_witness :
    (runTimed 100 capturingState
        (cycleEvents 100 (some { byteLength := 4096, timestamp := 0 }) 5000 1200 2000 3500)).1
      = { phase := .WakeListening, spotterOpen := true, captureOpen := false } ∧
    (runTimed 100 capturingState
        (cycleEvents 100 (some { byteLength := 4096, timestamp := 0 }) 5000 1200 2000 3500)).2
      ≤ 5000 + TIMEOUT + 60000 + 4000 :=
  C5_cycle_bounded 100 5000 TIMEOUT 60000 4000 (some { byteLength := 4096, timestamp := 0 })
    5000 1200 2000 3500 (by decide) (by decide) (by decide) (by decide)

/-- C6: playAudioResponse blocks until playback has finished in the success case
(the await of the didJustFinish status is its final action before returning
completed), and when the artifact cannot be loaded or playback cannot start it
logs the error and returns without the blocking await; it always returns one
of the two outcomes, so the caller proceeds in every case. -/
theorem C6_playback_contract (hasPrev unloadOk : Bool) (c : SoundCreation) :
    (c = .success → (hasPrev && !unloadOk) = false →
      (playAudioResponse hasPrev unloadOk c).1 = .completed ∧
      (playAudioResponse hasPrev unloadOk c).2.getLast? = some .awaitFinish) ∧
    ((playAudioResponse hasPrev unloadOk c).1 = .errorHandled →
      PlayEffect.awaitFinish ∉ (playAudioResponse hasPrev unloadOk c).2 ∧
      PlayEffect.logError ∈ (playAudioResponse hasPrev unloadOk c).2) ∧
    ((playAudioResponse hasPrev unloadOk c).1 = .completed ∨
      (playAudioResponse hasPrev unloadOk c).1 = .errorHandled) := by
  cases hasPrev <;> cases unloadOk <;> cases c <;> decide

/-- Witness for C6 at a fresh playback that succeeds. -/
theorem C6_witness :
    (playAudioResponse false true .success).1 = .completed ∧
    (playAudioResponse false true .success).2.getLast? = some .awaitFinish :=
  (C6_playback_contract false true .success).1 rfl rfl

/-- C7 counterexample: on a successful 200 response the client does not return
exactly the three fields text, audio_url and emotion; the returned object has
five keys. -/
theorem C7_counterexample :
    ¬ ((askQuestion (.response 200 (some sampleAskBody))).map (fun l => l.map Prod.fst)
        = .ok ["text", "audio_url", "emotion"]) := by
  decide

/-- C7 amended: every call posts to the ask endpoint with a JSON body carrying
user_input and user_id, and on every 2xx response with a parseable body the
client returns the fields text, audio_url and emotion of the server reply
together with response_time and audio_duration. -/
theorem C7_askQuestion_request_response (userInput : String) (userId context : JVal)
    (status : Nat) (data : Json) (hok : responseOk status = true) :
    (askRequest userInput userId context).method = "POST" ∧
    (askRequest userInput userId context).url = API_BASE_URL ++ "/ask" ∧
    (askRequest userInput userId context).body.lookup "user_input" = some (.str userInput) ∧
    (askRequest userInput userId context).body.lookup "user_id" = some userId ∧
    askQuestion (.response status (some data)) =
      .ok [ ("text", data.getField "text")
          , ("audio_url", data.getField "audio_url")
          , ("emotion", data.getField "emotion")
          , ("response_time", data.getField "response_time")
          , ("audio_duration", data.getField "audio_duration") ] := by
  refine ⟨rfl, rfl, rfl, rfl, ?_⟩
  simp [askQuestion, hok]

/-- Witness for C7 at a concrete 200 response. -/
theorem C7_witness :
    askQuestion (.response 200 (some sampleAskBody)) =
      .ok [ ("text", some (.str "hi"))
          , ("audio_url", some (.str "http://x/a.mp3"))
          , ("emotion", some (.str "happy"))
          , ("response_time", some (.num 100))
          , ("audio_duration", some (.num 2)) ] := by
  rw [(C7_askQuestion_request_response "q" .null .null 200 sampleAskBody (by decide)).2.2.2.2]
  rfl

/-- C8: the minimum byte-size acceptance boundary of the captured-utterance
validation: an artifact of exactly the minimum byte threshold is accepted and
an artifact one byte under it is rejected. -/
theorem C8_min_size_boundary (minBytes t1 t2 : Nat) (hpos : 0 < minBytes) :
    acceptUtterance minBytes { byteLength := minBytes, timestamp := t1 } = true ∧
    acceptUtterance minBytes { byteLength := minBytes - 1, timestamp := t2 } = false := by
  constructor
  · simp [acceptUtterance]
  · simp only [acceptUtterance, decide_eq_false_iff_not]
    omega

/-- Witness for C8 at a concrete threshold. -/
theorem C8_witness :
    acceptUtterance 2048 { byteLength := 2048, timestamp := 0 } = true ∧
    acceptUtterance 2048 { byteLength := 2047, timestamp := 0 } = false :=
  C8_min_size_boundary 2048 0 0 (by decide)

/-- C9: start and stop of the wake-word service are idempotent on the listening
flag: start on an initialized service that is already listening returns
normally with no voice-processor call and no state change, stop while not
listening likewise, and after any successful start (stop) a second start
(stop) is a no-op, so start after start equals start and stop after stop
equals stop. -/
theorem C9_start_stop_idempotent (env : VpEnv) (s : PicoState) :
    (s.picovoiceInit = true → s.isListening = true →
      picoStart env s = { result := .ok (), state := s, effects := [] }) ∧
    (s.isListening = false → picoStop env s = { result := .ok (), state := s, effects := [] }) ∧
    ((picoStart env s).result = .ok () →
      picoStart env (picoStart env s).state
        = { result := .ok (), state := (picoStart env s).state, effects := [] }) ∧
    ((picoStop env s).result = .ok () →
      picoStop env (picoStop env s).state
        = { result := .ok (), state := (picoStop env s).state, effects := [] }) := by
  rcases env with ⟨a, b⟩
  rcases s with ⟨pi, li⟩
  cases a <;> cases b <;> cases pi <;> cases li <;> decide

/-- Witness for C9 at concrete service states. -/
theorem C9_witness :
    picoStart { vpStartOk := true, vpStopOk := true }
        { picovoiceInit := true, isListening := true }
      = { result := .ok (), state := { picovoiceInit := true, isListening := true }
        , effects := [] } ∧
    picoStop { vpStartOk := true, vpStopOk := true }
        { picovoiceInit := true, isListening := false }
      = { result := .ok (), state := { picovoiceInit := true, isListening := false }
        , effects := [] } :=
  ⟨(C9_start_stop_idempotent { vpStartOk := true, vpStopOk := true }
      { picovoiceInit := true, isListening := true }).1 rfl rfl,
   (C9_start_stop_idempotent { vpStartOk := true, vpStopOk := true }
      { picovoiceInit := true, isListening := false }).2.1 rfl⟩

/-- C10: checkHealth is total, yielding a boolean for every fetch outcome rather
than throwing, and returns true exactly when the request produced an ok
response whose parsed body has a status field equal to the string healthy;
every network failure, non-ok status, unparseable body or other status value
yields false. -/
theorem C10_checkHealth_iff (o : FetchOutcome) :
    checkHealth o = true ↔
      ∃ status data, o = .response status (some data) ∧ responseOk status = true ∧
        data.getField "status" = some (.str "healthy") := by
  rcases o with _ | ⟨status, body⟩
  · constructor
    · intro h
      simp [checkHealth] at h
    · rintro ⟨s, d, hsd, _, _⟩
      cases hsd
  · rcases body with _ | data
    · constructor
      · intro h
        by_cases hok : responseOk status = true <;> simp [checkHealth, hok] at h
      · rintro ⟨s, d, hsd, _, _⟩
        injection hsd with h1 h2
        cases h2
    · by_cases hok : responseOk status = true
      · constructor
        · intro h
          simp only [checkHealth, hok, if_true] at h
          exact ⟨status, data, rfl, hok, (jsFieldEqStr_true_iff _ _).mp h⟩
        · rintro ⟨s, d, hsd, hok2, hd⟩
          injection hsd with h1 h2
          injection h2 with h3
          subst h1
          subst h3
          simp only [checkHealth, hok, if_true]
          exact (jsFieldEqStr_true_iff _ _).mpr hd
      · constructor
        · intro h
          simp [checkHealth, hok] at h
        · rintro ⟨s, d, hsd, hok2, _⟩
          injection hsd with h1 h2
          subst h1
          exact absurd hok2 hok

end VoiceApp
